import Mathlib

/-!
Verification development for the `sbi` documentation repository snapshot whose
sole supplied source file is `docs/how_to_guide/04_embedding_networks.ipynb`,
a Jupyter notebook (nbformat 4) made of markdown cells.  We embed

* the notebook's JSON structure (its cells, their `cell_type`, `metadata` and
  `source` arrays, and the top-level `nbformat` fields), transcribed verbatim
  from the file;
* the raw text of the file as a list of its lines;
* the shape arithmetic and the value-level semantics of the illustrative
  `CustomCNN` PyTorch module shown in the second code fence, following the
  documented semantics of `view`, `Conv2d`, `MaxPool2d`, `Linear` and `relu`;
* a parser for the fragment of the Python grammar used by the two code
  fences, to settle syntactic well-formedness of the snippets.
-/

/-! ## String utilities -/

/-- `charsBegin w l` is true when the character list `w` is an initial segment
of `l`. -/
def charsBegin (w l : List Char) : Bool :=
  match w, l with
  | [], _ => true
  | _ :: _, [] => false
  | a :: w', b :: l' => a == b && charsBegin w' l'

/-- `charsHave w l` is true when `w` occurs contiguously inside `l`. -/
def charsHave (w l : List Char) : Bool :=
  match l with
  | [] => charsBegin w []
  | _ :: l' => charsBegin w l || charsHave w l'

/-- `containsStr w s` is true when `w` occurs as a contiguous substring of the
string `s`. -/
def containsStr (w s : String) : Bool := charsHave w.toList s.toList

/-- ASCII lower-casing of a single character. -/
def asciiLower (c : Char) : Char :=
  if 65 ≤ c.toNat ∧ c.toNat ≤ 90 then Char.ofNat (c.toNat + 32) else c

/-- `lowerStr s` maps every ASCII upper-case letter of `s` to lower case. -/
def lowerStr (s : String) : String := String.mk (s.toList.map asciiLower)

/-! ## The notebook data model (nbformat 4) -/

/-- Jupyter cell types of nbformat 4. -/
inductive CellType where
  | markdown
  | code
  | raw
deriving DecidableEq, Repr

/-- A notebook cell: its `cell_type`, its `metadata` object (a list of
key/value entries; every cell of this notebook has the empty object)
and its `source`, the list of strings whose concatenation is the cell text. -/
structure Cell where
  cell_type : CellType
  metadata : List (String × String) := []
  source : List String
deriving DecidableEq, Repr

/-- A notebook: its cell list and the top-level `nbformat` version fields. -/
structure Notebook where
  cells : List Cell
  nbformat : Nat
  nbformat_minor : Nat
deriving DecidableEq, Repr
/-- Cell 0 of the notebook. -/
def cell0 : Cell :=
  { cell_type := CellType.markdown,
    source :=
      ["# How to use embedding nets for high-dimensional observations"] }

/-- Cell 1 of the notebook. -/
def cell1 : Cell :=
  { cell_type := CellType.markdown,
    source :=
      ["Many simulators return high-dimensional outputs such as time-series or images. To efficiently learn the posterior given such simulation outputs, `sbi` can employ _embedding networks_ which reduce these high-dimensional outputs.\n",
       "\n",
       "`sbi` provides pre-configured embedding networks (MLP, CNN, and permutation-invariant networks) or allows to pass custom-written embedding networks."] }

/-- Cell 2 of the notebook. -/
def cell2 : Cell :=
  { cell_type := CellType.markdown,
    source :=
      ["> Only `NPE` and `NRE` methods can use an `embedding_net` to learn summary statistics from simulation outputs. `NLE` does not offer such functionality because the simulation outputs are also the output of the neural density estimator. "] }

/-- Cell 3 of the notebook. -/
def cell3 : Cell :=
  { cell_type := CellType.markdown,
    source :=
      ["## Using pre-configured embedding networks"] }

/-- Cell 4 of the notebook. -/
def cell4 : Cell :=
  { cell_type := CellType.markdown,
    source :=
      ["```Python\n",
       "# import required modules\n",
       "from sbi.neural_nets import posterior_nn\n",
       "\n",
       "# import the different choices of pre-configured embedding networks\n",
       "from sbi.neural_nets.embedding_nets import (\n",
       "    FCEmbedding,\n",
       "    CNNEmbedding,\n",
       "    PermutationInvariantEmbedding\n",
       ")\n",
       "\n",
       "# Choose which type of pre-configured embedding net to use (e.g. CNN)\n",
       "embedding_net = CNNEmbedding(input_shape=(32, 32))\n",
       "\n",
       "# Instantiate the conditional neural density estimator\n",
       "neural_posterior = posterior_nn(model=\"maf\", embedding_net=embedding_net)\n",
       "\n",
       "# Setup the inference procedure with NPE\n",
       "trainer = NPE(density_estimator=neural_posterior)\n",
       "# Continue as always...\n",
       "```"] }

/-- Cell 5 of the notebook. -/
def cell5 : Cell :=
  { cell_type := CellType.markdown,
    source :=
      ["## Defining custom embedding networks\n",
       "\n",
       "Alternatively, it is also possible to define custom embedding networks and pass those to neural density estimator. For example, you can implement a custom CNN as follows:"] }

/-- Cell 6 of the notebook. -/
def cell6 : Cell :=
  { cell_type := CellType.markdown,
    source :=
      ["```python\n",
       "class CustomCNN(nn.Module):\n",
       "    def __init__(self):\n",
       "        super().__init__()\n",
       "        # 2D convolutional layer\n",
       "        self.conv1 = nn.Conv2d(in_channels=1, out_channels=6, kernel_size=5, padding=2)\n",
       "        # Maxpool layer that reduces 32x32 image to 4x4\n",
       "        self.pool = nn.MaxPool2d(kernel_size=8, stride=8)\n",
       "        # Fully connected layer taking as input the 6 flattened output arrays\n",
       "        # from the maxpooling layer\n",
       "        self.fc = nn.Linear(in_features=6 * 4 * 4, out_features=8)\n",
       "\n",
       "    def forward(self, x):\n",
       "        x = x.view(-1, 1, 32, 32)\n",
       "        x = self.pool(F.relu(self.conv1(x)))\n",
       "        x = x.view(-1, 6 * 4 * 4)\n",
       "        x = F.relu(self.fc(x))\n",
       "        return x\n",
       "\n",
       "# instantiate the custom embedding_net\n",
       "embedding_net_custom = CustomCNN()\n",
       "\n",
       "# Instantiate the conditional neural density estimator\n",
       "neural_posterior = posterior_nn(model=\"maf\", embedding_net=embedding_net_custom)\n",
       "trainer = NPE(density_estimator=neural_posterior)\n",
       "# Continue as always...\n",
       "```"] }

/-- Cell 7 of the notebook. -/
def cell7 : Cell :=
  { cell_type := CellType.markdown,
    source :=
      ["## Example: Inferring parameters from images\n",
       "\n",
       "For a full example on using embedding networks (on simulation outputs that are images), see [this tutorial](https://sbi.readthedocs.io/en/latest/advanced_tutorials/04_embedding_networks.html)."] }

/-- The notebook docs/how_to_guide/04_embedding_networks.ipynb, transcribed
from its JSON: eight cells, nbformat 4.4. -/
def embeddingNetworksNotebook : Notebook :=
  { cells := [cell0, cell1, cell2, cell3, cell4, cell5, cell6, cell7],
    nbformat := 4,
    nbformat_minor := 4 }

/-- The raw text of docs/how_to_guide/04_embedding_networks.ipynb, as a list of its lines
(the file ends without a trailing newline; it has 133 lines). -/
def ipynbLines : List String :=
  ["\x7b",
   " \"cells\": [",
   "  \x7b",
   "   \"cell_type\": \"markdown\",",
   "   \"metadata\": \x7b\x7d,",
   "   \"source\": [",
   "    \"# How to use embedding nets for high-dimensional observations\"",
   "   ]",
   "  \x7d,",
   "  \x7b",
   "   \"cell_type\": \"markdown\",",
   "   \"metadata\": \x7b\x7d,",
   "   \"source\": [",
   "    \"Many simulators return high-dimensional outputs such as time-series or images. To efficiently learn the posterior given such simulation outputs, `sbi` can employ _embedding networks_ which reduce these high-dimensional outputs.\\n\",",
   "    \"\\n\",",
   "    \"`sbi` provides pre-configured embedding networks (MLP, CNN, and permutation-invariant networks) or allows to pass custom-written embedding networks.\"",
   "   ]",
   "  \x7d,",
   "  \x7b",
   "   \"cell_type\": \"markdown\",",
   "   \"metadata\": \x7b\x7d,",
   "   \"source\": [",
   "    \"> Only `NPE` and `NRE` methods can use an `embedding_net` to learn summary statistics from simulation outputs. `NLE` does not offer such functionality because the simulation outputs are also the output of the neural density estimator. \"",
   "   ]",
   "  \x7d,",
   "  \x7b",
   "   \"cell_type\": \"markdown\",",
   "   \"metadata\": \x7b\x7d,",
   "   \"source\": [",
   "    \"## Using pre-configured embedding networks\"",
   "   ]",
   "  \x7d,",
   "  \x7b",
   "   \"cell_type\": \"markdown\",",
   "   \"metadata\": \x7b\x7d,",
   "   \"source\": [",
   "    \"```Python\\n\",",
   "    \"# import required modules\\n\",",
   "    \"from sbi.neural_nets import posterior_nn\\n\",",
   "    \"\\n\",",
   "    \"# import the different choices of pre-configured embedding networks\\n\",",
   "    \"from sbi.neural_nets.embedding_nets import (\\n\",",
   "    \"    FCEmbedding,\\n\",",
   "    \"    CNNEmbedding,\\n\",",
   "    \"    PermutationInvariantEmbedding\\n\",",
   "    \")\\n\",",
   "    \"\\n\",",
   "    \"# Choose which type of pre-configured embedding net to use (e.g. CNN)\\n\",",
   "    \"embedding_net = CNNEmbedding(input_shape=(32, 32))\\n\",",
   "    \"\\n\",",
   "    \"# Instantiate the conditional neural density estimator\\n\",",
   "    \"neural_posterior = posterior_nn(model=\\\"maf\\\", embedding_net=embedding_net)\\n\",",
   "    \"\\n\",",
   "    \"# Setup the inference procedure with NPE\\n\",",
   "    \"trainer = NPE(density_estimator=neural_posterior)\\n\",",
   "    \"# Continue as always...\\n\",",
   "    \"```\"",
   "   ]",
   "  \x7d,",
   "  \x7b",
   "   \"cell_type\": \"markdown\",",
   "   \"metadata\": \x7b\x7d,",
   "   \"source\": [",
   "    \"## Defining custom embedding networks\\n\",",
   "    \"\\n\",",
   "    \"Alternatively, it is also possible to define custom embedding networks and pass those to neural density estimator. For example, you can implement a custom CNN as follows:\"",
   "   ]",
   "  \x7d,",
   "  \x7b",
   "   \"cell_type\": \"markdown\",",
   "   \"metadata\": \x7b\x7d,",
   "   \"source\": [",
   "    \"```python\\n\",",
   "    \"class CustomCNN(nn.Module):\\n\",",
   "    \"    def __init__(self):\\n\",",
   "    \"        super().__init__()\\n\",",
   "    \"        # 2D convolutional layer\\n\",",
   "    \"        self.conv1 = nn.Conv2d(in_channels=1, out_channels=6, kernel_size=5, padding=2)\\n\",",
   "    \"        # Maxpool layer that reduces 32x32 image to 4x4\\n\",",
   "    \"        self.pool = nn.MaxPool2d(kernel_size=8, stride=8)\\n\",",
   "    \"        # Fully connected layer taking as input the 6 flattened output arrays\\n\",",
   "    \"        # from the maxpooling layer\\n\",",
   "    \"        self.fc = nn.Linear(in_features=6 * 4 * 4, out_features=8)\\n\",",
   "    \"\\n\",",
   "    \"    def forward(self, x):\\n\",",
   "    \"        x = x.view(-1, 1, 32, 32)\\n\",",
   "    \"        x = self.pool(F.relu(self.conv1(x)))\\n\",",
   "    \"        x = x.view(-1, 6 * 4 * 4)\\n\",",
   "    \"        x = F.relu(self.fc(x))\\n\",",
   "    \"        return x\\n\",",
   "    \"\\n\",",
   "    \"# instantiate the custom embedding_net\\n\",",
   "    \"embedding_net_custom = CustomCNN()\\n\",",
   "    \"\\n\",",
   "    \"# Instantiate the conditional neural density estimator\\n\",",
   "    \"neural_posterior = posterior_nn(model=\\\"maf\\\", embedding_net=embedding_net_custom)\\n\",",
   "    \"trainer = NPE(density_estimator=neural_posterior)\\n\",",
   "    \"# Continue as always...\\n\",",
   "    \"```\"",
   "   ]",
   "  \x7d,",
   "  \x7b",
   "   \"cell_type\": \"markdown\",",
   "   \"metadata\": \x7b\x7d,",
   "   \"source\": [",
   "    \"## Example: Inferring parameters from images\\n\",",
   "    \"\\n\",",
   "    \"For a full example on using embedding networks (on simulation outputs that are images), see [this tutorial](https://sbi.readthedocs.io/en/latest/advanced_tutorials/04_embedding_networks.html).\"",
   "   ]",
   "  \x7d",
   " ],",
   " \"metadata\": \x7b",
   "  \"kernelspec\": \x7b",
   "   \"display_name\": \"Python 3 (ipykernel)\",",
   "   \"language\": \"python\",",
   "   \"name\": \"python3\"",
   "  \x7d,",
   "  \"language_info\": \x7b",
   "   \"codemirror_mode\": \x7b",
   "    \"name\": \"ipython\",",
   "    \"version\": 3",
   "   \x7d,",
   "   \"file_extension\": \".py\",",
   "   \"mimetype\": \"text/x-python\",",
   "   \"name\": \"python\",",
   "   \"nbconvert_exporter\": \"python\",",
   "   \"pygments_lexer\": \"ipython3\",",
   "   \"version\": \"3.12.4\"",
   "  \x7d",
   " \x7d,",
   " \"nbformat\": 4,",
   " \"nbformat_minor\": 4",
   "\x7d"]

/-- Lower-cased copies of the file's lines, for case-insensitive word checks. -/
def ipynbLinesLower : List String := ipynbLines.map lowerStr

/-- The supplied repository source tree: each supplied source file as a path
paired with its parsed notebook content.  The snapshot contains exactly this
one file. -/
def repoSourceFiles : List (String × Notebook) :=
  [("docs/how_to_guide/04_embedding_networks.ipynb", embeddingNetworksNotebook)]

/-! ## The markdown code fences -/

/-- `beginsWith w s` is true when the string `w` is an initial segment of `s`. -/
def beginsWith (w s : String) : Bool := charsBegin w.toList s.toList

/-- `stripLeading s` drops the leading spaces of `s`. -/
def stripLeading (s : String) : String := String.mk (s.toList.dropWhile (· == ' '))

/-- The source strings of a fenced cell strictly between its opening and
closing fence lines. -/
def fenceLines (c : Cell) : List String := (c.source.drop 1).dropLast

/-- The text of a markdown code fence: the cell's source strings between the
fence markers, concatenated. -/
def fenceText (c : Cell) : String := String.join (fenceLines c)

/-- The cells of a notebook whose markdown opens with a code fence. -/
def codeFenceCells (nb : Notebook) : List Cell :=
  nb.cells.filter fun c =>
    match c.source with
    | s :: _ => beginsWith "```" s
    | [] => false

/-- The first illustrative Python snippet (pre-configured embedding networks,
cell 4). -/
def pythonSrc1 : String := fenceText cell4

/-- The second illustrative Python snippet (the custom `CustomCNN` embedding
network, cell 6). -/
def pythonSrc2 : String := fenceText cell6

/-- The lines of a fence that mention the `sbi` package. -/
def sbiLinesIn (ls : List String) : List String :=
  ls.filter fun l => containsStr "sbi" l
/-! ## Shape semantics of the CustomCNN snippet

Layer hyper-parameters are transcribed from the snippet's constructor; the
output-size formulas are the documented PyTorch formulas for `Conv2d`
(stride 1, dilation 1 defaults) and `MaxPool2d` (padding 0, dilation 1
defaults). -/

/-- `nn.Conv2d(in_channels=1, out_channels=6, kernel_size=5, padding=2)`. -/
def conv1InChannels : Nat := 1

/-- Out-channel count of `conv1`. -/
def conv1OutChannels : Nat := 6

/-- Kernel size of `conv1`. -/
def conv1Kernel : Nat := 5

/-- Padding of `conv1`. -/
def conv1Padding : Nat := 2

/-- `nn.MaxPool2d(kernel_size=8, stride=8)`: kernel size. -/
def poolKernel : Nat := 8

/-- Stride of the maxpool layer. -/
def poolStride : Nat := 8

/-- Width of the second view, `x.view(-1, 6 * 4 * 4)`. -/
def flattenWidth : Nat := 6 * 4 * 4

/-- `nn.Linear(in_features=6 * 4 * 4, out_features=8)`: in_features. -/
def fcInFeatures : Nat := 6 * 4 * 4

/-- out_features of `self.fc`. -/
def fcOutFeatures : Nat := 8

/-- Output spatial size of `Conv2d` along one dimension, input size `n`,
kernel `k`, padding `p`, stride `s`, dilation `d`:
`(n + 2p − d(k−1) − 1)/s + 1` (floor division). -/
def conv2dOutDim (n k p s d : Nat) : Nat := (n + 2 * p - d * (k - 1) - 1) / s + 1

/-- Output spatial size of `MaxPool2d` along one dimension, input size `n`,
kernel `k`, stride `s` (padding 0, dilation 1): `(n − (k−1) − 1)/s + 1`. -/
def maxPool2dOutDim (n k s : Nat) : Nat := (n - (k - 1) - 1) / s + 1

/-- Shape semantics of `CustomCNN.forward`, line by line: `x.view(-1,1,32,32)`
needs the element count divisible by `1·32·32`; `conv1` and the pointwise
`relu` map each 32×32 channel plane to `conv2dOutDim 32 5 2 1 1` square;
`self.pool` reduces it to `maxPool2dOutDim · 8 8` square; `x.view(-1, 6*4*4)`
needs the remaining element count divisible by `flattenWidth`; `self.fc`
needs the resulting width to equal its `in_features` and yields width
`fcOutFeatures`.  Returns the output shape `(rows, 8)`, or `none` when a view
or the linear layer is impossible. -/
def forwardShape (numel : Nat) : Option (Nat × Nat) :=
  if numel % (conv1InChannels * 32 * 32) = 0 then
    let n := numel / (conv1InChannels * 32 * 32)
    let c := conv2dOutDim 32 conv1Kernel conv1Padding 1 1
    let p := maxPool2dOutDim c poolKernel poolStride
    let total := n * conv1OutChannels * p * p
    if total % flattenWidth = 0 ∧ flattenWidth = fcInFeatures then
      some (total / flattenWidth, fcOutFeatures)
    else none
  else none

/-! ## Value semantics of the CustomCNN snippet

Tensors are modelled as index functions into ℚ; the input is the flattened
element list of the tensor handed to `forward`. -/

/-- Learnable parameters of `self.conv1`: a weight for each
(out-channel, in-channel, row, column) and a bias per out-channel. -/
structure Conv1Params where
  weight : Fin 6 → Fin 1 → Fin 5 → Fin 5 → ℚ
  bias : Fin 6 → ℚ

/-- Learnable parameters of `self.fc`. -/
structure FcParams where
  weight : Fin 8 → Fin 96 → ℚ
  bias : Fin 8 → ℚ

/-- All learnable parameters of `CustomCNN` (the maxpool has none). -/
structure CNNParams where
  conv1 : Conv1Params
  fc : FcParams

/-- `F.relu` on one entry. -/
def relu (q : ℚ) : ℚ := max q 0

/-- Pixel `(i, j) ∈ ℤ²` of image `n` of `x.view(-1, 1, 32, 32)`, extended by
the zero padding of `conv1`: element `n·1024 + 32·i + j` of `x` inside the
32×32 frame (C-order view), `0` outside. -/
def paddedPixel (x : List ℚ) (n : Nat) (i j : ℤ) : ℚ :=
  if 0 ≤ i ∧ i < 32 ∧ 0 ≤ j ∧ j < 32 then
    x.getD (n * 1024 + 32 * i.toNat + j.toNat) 0
  else 0

/-- Channel `c` of `self.conv1(x)` at `(i, j)`: bias plus the cross-correlation
of the 5×5 kernel with the zero-padded (padding 2) input plane. -/
def conv1Val (p : Conv1Params) (x : List ℚ) (n : Nat) (c : Fin 6) (i j : Fin 32) : ℚ :=
  p.bias c + ∑ a : Fin 5, ∑ b : Fin 5,
    p.weight c 0 a b *
      paddedPixel x n ((i.val : ℤ) + (a.val : ℤ) - 2) ((j.val : ℤ) + (b.val : ℤ) - 2)

/-- `F.relu(self.conv1(x))`. -/
def reluConv1Val (p : Conv1Params) (x : List ℚ) (n : Nat) (c : Fin 6) (i j : Fin 32) : ℚ :=
  relu (conv1Val p x n c i j)

/-- The 64 entries of the 8×8 maxpool window at block `(bi, bj)` of a
32×32 plane. -/
def windowVals (t : Fin 32 → Fin 32 → ℚ) (bi bj : Fin 4) : List ℚ :=
  ((List.finRange 8).map fun u =>
    (List.finRange 8).map fun v =>
      t ⟨8 * bi.val + u.val, by have hb := bi.isLt; have hu := u.isLt; omega⟩
        ⟨8 * bj.val + v.val, by have hb := bj.isLt; have hv := v.isLt; omega⟩).flatten

/-- `MaxPool2d(kernel_size=8, stride=8)` on one 32×32 plane: the maximum of
the window (the `[]` arm is unreachable: the window has 64 entries). -/
def maxPool2dVal (t : Fin 32 → Fin 32 → ℚ) (bi bj : Fin 4) : ℚ :=
  match windowVals t bi bj with
  | [] => 0
  | q :: rest => rest.foldl max q

/-- `self.pool(F.relu(self.conv1(x)))`. -/
def pooledVal (p : Conv1Params) (x : List ℚ) (n : Nat) (c : Fin 6) (bi bj : Fin 4) : ℚ :=
  maxPool2dVal (fun i j => reluConv1Val p x n c i j) bi bj

/-- Feature `f` of row `n` of `x.view(-1, 6 * 4 * 4)`: C-order flattening of
the `(6, 4, 4)` pooled tensor, `f = 16·c + 4·bi + bj`. -/
def flatFeature (p : Conv1Params) (x : List ℚ) (n : Nat) (f : Fin 96) : ℚ :=
  pooledVal p x n
    ⟨f.val / 16, by have hf := f.isLt; omega⟩
    ⟨f.val % 16 / 4, by have hf := f.isLt; omega⟩
    ⟨f.val % 4, by have hf := f.isLt; omega⟩

/-- Component `k` of row `n` of `F.relu(self.fc(x))`, the value returned by
`forward`. -/
def outputVal (p : CNNParams) (x : List ℚ) (n : Nat) (k : Fin 8) : ℚ :=
  relu (p.fc.bias k + ∑ f : Fin 96, p.fc.weight k f * flatFeature p.conv1 x n f)

/-- `CustomCNN.forward` on the flattened input `x`: when the shape pipeline
admits `x.length` elements it returns the row count together with the output
matrix as an index function, otherwise `none`. -/
def forward (p : CNNParams) (x : List ℚ) : Option (Nat × (Nat → Fin 8 → ℚ)) :=
  match forwardShape x.length with
  | some (rows, _) => some (rows, fun n k => outputVal p x n k)
  | none => none
/-! ## RNG-threaded run of CustomCNN.forward

PyTorch routes randomness through a global generator; stochastic ops advance
it.  Each op used by `forward` is run here with the generator threaded
through, so determinism is the statement that the result ignores the
generator and returns it unchanged. -/

/-- The global torch RNG state. -/
def RngState : Type := Nat

/-- `self.conv1(x)` under the RNG state: convolution draws no randomness. -/
def conv1Run (g : RngState) (p : Conv1Params) (x : List ℚ) :
    (Nat → Fin 6 → Fin 32 → Fin 32 → ℚ) × RngState :=
  (fun n c i j => conv1Val p x n c i j, g)

/-- Pointwise `F.relu` on the conv output under the RNG state. -/
def reluPlanesRun (g : RngState) (t : Nat → Fin 6 → Fin 32 → Fin 32 → ℚ) :
    (Nat → Fin 6 → Fin 32 → Fin 32 → ℚ) × RngState :=
  (fun n c i j => relu (t n c i j), g)

/-- `self.pool` under the RNG state. -/
def poolRun (g : RngState) (t : Nat → Fin 6 → Fin 32 → Fin 32 → ℚ) :
    (Nat → Fin 6 → Fin 4 → Fin 4 → ℚ) × RngState :=
  (fun n c bi bj => maxPool2dVal (fun i j => t n c i j) bi bj, g)

/-- `x.view(-1, 6 * 4 * 4)` under the RNG state: a pure reindexing. -/
def flattenRun (g : RngState) (t : Nat → Fin 6 → Fin 4 → Fin 4 → ℚ) :
    (Nat → Fin 96 → ℚ) × RngState :=
  (fun n f => t n
    ⟨f.val / 16, by have hf := f.isLt; omega⟩
    ⟨f.val % 16 / 4, by have hf := f.isLt; omega⟩
    ⟨f.val % 4, by have hf := f.isLt; omega⟩, g)

/-- `self.fc` under the RNG state. -/
def fcRun (g : RngState) (p : FcParams) (t : Nat → Fin 96 → ℚ) :
    (Nat → Fin 8 → ℚ) × RngState :=
  (fun n k => p.bias k + ∑ f : Fin 96, p.weight k f * t n f, g)

/-- The final pointwise `F.relu` under the RNG state. -/
def reluRowsRun (g : RngState) (t : Nat → Fin 8 → ℚ) :
    (Nat → Fin 8 → ℚ) × RngState :=
  (fun n k => relu (t n k), g)

/-- `CustomCNN.forward` with the global RNG state threaded through each of
its tensor operations in program order. -/
def forwardRun (g : RngState) (p : CNNParams) (x : List ℚ) :
    Option (Nat × (Nat → Fin 8 → ℚ)) × RngState :=
  match forwardShape x.length with
  | some (rows, _) =>
    let (t1, g1) := conv1Run g p.conv1 x
    let (t2, g2) := reluPlanesRun g1 t1
    let (t3, g3) := poolRun g2 t2
    let (t4, g4) := flattenRun g3 t3
    let (t5, g5) := fcRun g4 p.fc t4
    let (t6, g6) := reluRowsRun g5 t5
    (some (rows, t6), g6)
  | none => (none, g)
/-! ## A parser for the Python fragment used by the code fences

The lexer implements Python's line structure for the constructs that occur in
the snippets: comment and blank lines, significant indentation with
INDENT/DEDENT, and implicit line joining inside parentheses/brackets.  The
parser is a recursive-descent parser for the statement and expression grammar
the snippets use (imports, assignments, expression statements, `class` and
`def` with indented blocks, `return`; calls with positional and keyword
arguments, attribute access, tuples, unary minus, arithmetic operators,
string and number literals).  Acceptance means the whole snippet lexes and
parses. -/

/-- Tokens of the Python lexer. -/
inductive PyTok where
  | name (s : String)
  | num (s : String)
  | str (s : String)
  | punct (s : String)
  | nl
  | ind
  | ded
deriving DecidableEq, Repr

/-- Characters that may start an identifier. -/
def isIdentStart (c : Char) : Bool := c.isAlpha || c == '_'

/-- Characters that may continue an identifier. -/
def isIdentChar (c : Char) : Bool := c.isAlphanum || c == '_'

/-- Lex a double-quoted string body (after the opening quote), with
backslash escapes; returns the body and the rest of the characters. -/
def lexStr (fuel : Nat) (cs : List Char) (acc : List Char) :
    Option (String × List Char) :=
  match fuel with
  | 0 => none
  | fuel + 1 =>
    match cs with
    | [] => none
    | '"' :: rest => some (String.mk acc.reverse, rest)
    | '\\' :: c :: rest => lexStr fuel rest (c :: '\\' :: acc)
    | '\\' :: [] => none
    | c :: rest => lexStr fuel rest (c :: acc)

/-- Lex the body of one physical line (indentation already consumed),
tracking the bracket depth; a `#` comment ends the line. -/
def lexChunk (fuel : Nat) (cs : List Char) (depth : Nat) :
    Option (List PyTok × Nat) :=
  match fuel with
  | 0 => none
  | fuel + 1 =>
    match cs with
    | [] => some ([], depth)
    | c :: rest =>
      if c == ' ' then lexChunk fuel rest depth
      else if c == '#' then some ([], depth)
      else if c == '"' then
        match lexStr fuel rest [] with
        | some (s, rest') =>
          match lexChunk fuel rest' depth with
          | some (ts, d) => some (PyTok.str s :: ts, d)
          | none => none
        | none => none
      else if isIdentStart c then
        let w := String.mk (c :: rest.takeWhile isIdentChar)
        match lexChunk fuel (rest.dropWhile isIdentChar) depth with
        | some (ts, d) => some (PyTok.name w :: ts, d)
        | none => none
      else if c.isDigit then
        let w := String.mk (c :: rest.takeWhile Char.isDigit)
        match lexChunk fuel (rest.dropWhile Char.isDigit) depth with
        | some (ts, d) => some (PyTok.num w :: ts, d)
        | none => none
      else if c == '(' || c == '[' then
        match lexChunk fuel rest (depth + 1) with
        | some (ts, d) => some (PyTok.punct (String.mk [c]) :: ts, d)
        | none => none
      else if c == ')' || c == ']' then
        if depth == 0 then none
        else
          match lexChunk fuel rest (depth - 1) with
          | some (ts, d) => some (PyTok.punct (String.mk [c]) :: ts, d)
          | none => none
      else
        let two : Option String :=
          match c, rest with
          | '=', '=' :: _ => some "=="
          | '!', '=' :: _ => some "!="
          | '<', '=' :: _ => some "<="
          | '>', '=' :: _ => some ">="
          | '-', '>' :: _ => some "->"
          | '*', '*' :: _ => some "**"
          | '/', '/' :: _ => some "//"
          | _, _ => none
        match two with
        | some op =>
          match lexChunk fuel (rest.drop 1) depth with
          | some (ts, d) => some (PyTok.punct op :: ts, d)
          | none => none
        | none =>
          if c == '=' || c == ',' || c == '.' || c == ':' || c == '*' ||
             c == '+' || c == '-' || c == '/' || c == '%' || c == '<' ||
             c == '>' then
            match lexChunk fuel rest depth with
            | some (ts, d) => some (PyTok.punct (String.mk [c]) :: ts, d)
            | none => none
          else none

/-- Emit INDENT or DEDENT tokens moving the indentation stack to level `k`. -/
def adjustIndent (fuel : Nat) (stack : List Nat) (k : Nat) :
    Option (List PyTok × List Nat) :=
  match fuel with
  | 0 => none
  | fuel + 1 =>
    match stack with
    | [] => none
    | top :: rest =>
      if k == top then some ([], top :: rest)
      else if top < k then some ([PyTok.ind], k :: top :: rest)
      else
        match adjustIndent fuel rest k with
        | some (ts, st) => some (PyTok.ded :: ts, st)
        | none => none

/-- Split a character list at newline characters. -/
def splitNl (cs : List Char) : List (List Char) :=
  match cs with
  | [] => [[]]
  | '\n' :: rest => [] :: splitNl rest
  | c :: rest =>
    match splitNl rest with
    | l :: ls => (c :: l) :: ls
    | [] => [[c]]

/-- Lex a list of physical lines with Python's line structure: blank and
comment lines are skipped, indentation is significant at bracket depth 0,
newlines are suppressed inside brackets, and pending DEDENTs are emitted at
the end of the input. -/
def lexLines (fuel : Nat) (lines : List (List Char)) (depth : Nat)
    (stack : List Nat) : Option (List PyTok) :=
  match fuel with
  | 0 => none
  | fuel + 1 =>
    match lines with
    | [] =>
      if depth == 0 then some (List.replicate (stack.length - 1) PyTok.ded)
      else none
    | cs :: rest =>
      if depth == 0 then
        let k := (cs.takeWhile (· == ' ')).length
        let body := cs.dropWhile (· == ' ')
        match body with
        | [] => lexLines fuel rest 0 stack
        | '#' :: _ => lexLines fuel rest 0 stack
        | _ =>
          match adjustIndent (stack.length + 1) stack k with
          | none => none
          | some (indToks, stack') =>
            match lexChunk (cs.length + 1) body 0 with
            | none => none
            | some (ts, depth') =>
              match lexLines fuel rest depth' stack' with
              | none => none
              | some more =>
                if depth' == 0 then
                  some (indToks ++ ts ++ PyTok.nl :: more)
                else some (indToks ++ ts ++ more)
      else
        match lexChunk (cs.length + 1) cs depth with
        | none => none
        | some (ts, depth') =>
          match lexLines fuel rest depth' stack with
          | none => none
          | some more =>
            if depth' == 0 then some (ts ++ PyTok.nl :: more)
            else some (ts ++ more)

/-- Lex a whole Python source text. -/
def pyLex (src : String) : Option (List PyTok) :=
  let lines := splitNl src.toList
  lexLines (lines.length + 1) lines 0 [0]
/-- Python expressions of the fragment. -/
inductive PyExpr where
  | nameE (s : String)
  | numE (s : String)
  | strE (s : String)
  | attrE (e : PyExpr) (field : String)
  | callE (e : PyExpr) (args : List (Option String × PyExpr))
  | tupleE (es : List PyExpr)
  | binE (op : String) (a b : PyExpr)
  | negE (e : PyExpr)
deriving Repr

/-- A call argument: an optional keyword and the value. -/
def PyArg : Type := Option String × PyExpr

/-- The Python keywords, which are not identifiers. -/
def pyKeywords : List String :=
  ["False", "None", "True", "and", "as", "assert", "async", "await",
   "break", "class", "continue", "def", "del", "elif", "else", "except",
   "finally", "for", "from", "global", "if", "in", "is", "lambda",
   "nonlocal", "not", "or", "pass", "return", "try", "while", "with",
   "yield", "import", "del", "raise"]

/-- Is `s` a Python keyword? -/
def isKw (s : String) : Bool := pyKeywords.contains s

mutual

/-- Additive-level expression: `mul (('+' | '-') mul)*`. -/
def parseExpr (fuel : Nat) (ts : List PyTok) : Option (PyExpr × List PyTok) :=
  match fuel with
  | 0 => none
  | fuel + 1 =>
    match parseMul fuel ts with
    | some (e, rest) => parseAddRest fuel e rest
    | none => none

/-- Remaining `('+' | '-') mul` factors. -/
def parseAddRest (fuel : Nat) (e : PyExpr) (ts : List PyTok) :
    Option (PyExpr × List PyTok) :=
  match fuel with
  | 0 => none
  | fuel + 1 =>
    match ts with
    | PyTok.punct "+" :: rest =>
      match parseMul fuel rest with
      | some (e2, rest1) => parseAddRest fuel (PyExpr.binE "+" e e2) rest1
      | none => none
    | PyTok.punct "-" :: rest =>
      match parseMul fuel rest with
      | some (e2, rest1) => parseAddRest fuel (PyExpr.binE "-" e e2) rest1
      | none => none
    | _ => some (e, ts)

/-- Multiplicative-level expression: `unary (('*' | '/' | '//' | '%') unary)*`. -/
def parseMul (fuel : Nat) (ts : List PyTok) : Option (PyExpr × List PyTok) :=
  match fuel with
  | 0 => none
  | fuel + 1 =>
    match parseUnary fuel ts with
    | some (e, rest) => parseMulRest fuel e rest
    | none => none

/-- Remaining multiplicative factors. -/
def parseMulRest (fuel : Nat) (e : PyExpr) (ts : List PyTok) :
    Option (PyExpr × List PyTok) :=
  match fuel with
  | 0 => none
  | fuel + 1 =>
    match ts with
    | PyTok.punct "*" :: rest =>
      match parseUnary fuel rest with
      | some (e2, rest1) => parseMulRest fuel (PyExpr.binE "*" e e2) rest1
      | none => none
    | PyTok.punct "/" :: rest =>
      match parseUnary fuel rest with
      | some (e2, rest1) => parseMulRest fuel (PyExpr.binE "/" e e2) rest1
      | none => none
    | PyTok.punct "//" :: rest =>
      match parseUnary fuel rest with
      | some (e2, rest1) => parseMulRest fuel (PyExpr.binE "//" e e2) rest1
      | none => none
    | PyTok.punct "%" :: rest =>
      match parseUnary fuel rest with
      | some (e2, rest1) => parseMulRest fuel (PyExpr.binE "%" e e2) rest1
      | none => none
    | _ => some (e, ts)

/-- Unary level: `'-' unary | postfix`. -/
def parseUnary (fuel : Nat) (ts : List PyTok) : Option (PyExpr × List PyTok) :=
  match fuel with
  | 0 => none
  | fuel + 1 =>
    match ts with
    | PyTok.punct "-" :: rest =>
      match parseUnary fuel rest with
      | some (e, rest1) => some (PyExpr.negE e, rest1)
      | none => none
    | _ => parsePostfix fuel ts

/-- Postfix level: an atom followed by attribute and call trailers. -/
def parsePostfix (fuel : Nat) (ts : List PyTok) : Option (PyExpr × List PyTok) :=
  match fuel with
  | 0 => none
  | fuel + 1 =>
    match parseAtom fuel ts with
    | some (e, rest) => parseTrailers fuel e rest
    | none => none

/-- Trailers: `'.' NAME` and `'(' args ')'`. -/
def parseTrailers (fuel : Nat) (e : PyExpr) (ts : List PyTok) :
    Option (PyExpr × List PyTok) :=
  match fuel with
  | 0 => none
  | fuel + 1 =>
    match ts with
    | PyTok.punct "." :: PyTok.name f :: rest =>
      if isKw f then none else parseTrailers fuel (PyExpr.attrE e f) rest
    | PyTok.punct "(" :: rest =>
      match parseArgs fuel rest [] with
      | some (args, rest1) => parseTrailers fuel (PyExpr.callE e args) rest1
      | none => none
    | _ => some (e, ts)

/-- Atoms: identifiers, literals and parenthesized expressions or tuples. -/
def parseAtom (fuel : Nat) (ts : List PyTok) : Option (PyExpr × List PyTok) :=
  match fuel with
  | 0 => none
  | fuel + 1 =>
    match ts with
    | PyTok.name s :: rest => if isKw s then none else some (PyExpr.nameE s, rest)
    | PyTok.num s :: rest => some (PyExpr.numE s, rest)
    | PyTok.str s :: rest => some (PyExpr.strE s, rest)
    | PyTok.punct "(" :: PyTok.punct ")" :: rest => some (PyExpr.tupleE [], rest)
    | PyTok.punct "(" :: rest =>
      match parseExpr fuel rest with
      | some (e, rest1) =>
        match rest1 with
        | PyTok.punct ")" :: rest2 => some (e, rest2)
        | PyTok.punct "," :: rest2 => parseTupleRest fuel rest2 [e]
        | _ => none
      | none => none
    | _ => none

/-- Items of a parenthesized tuple after the first comma, allowing a trailing
comma before the closing parenthesis. -/
def parseTupleRest (fuel : Nat) (ts : List PyTok) (acc : List PyExpr) :
    Option (PyExpr × List PyTok) :=
  match fuel with
  | 0 => none
  | fuel + 1 =>
    match ts with
    | PyTok.punct ")" :: rest => some (PyExpr.tupleE acc.reverse, rest)
    | _ =>
      match parseExpr fuel ts with
      | some (e, rest1) =>
        match rest1 with
        | PyTok.punct "," :: rest2 => parseTupleRest fuel rest2 (e :: acc)
        | PyTok.punct ")" :: rest2 => some (PyExpr.tupleE (e :: acc).reverse, rest2)
        | _ => none
      | none => none

/-- Call arguments after the opening parenthesis: positional or
`NAME '=' expr` keyword arguments, comma-separated, up to the closing
parenthesis. -/
def parseArgs (fuel : Nat) (ts : List PyTok) (acc : List (Option String × PyExpr)) :
    Option (List (Option String × PyExpr) × List PyTok) :=
  match fuel with
  | 0 => none
  | fuel + 1 =>
    match ts with
    | PyTok.punct ")" :: rest => some (acc.reverse, rest)
    | PyTok.name k :: PyTok.punct "=" :: rest' =>
      if isKw k then none
      else
        match parseExpr fuel rest' with
        | some (e, rest1) => parseArgsSep fuel rest1 ((some k, e) :: acc)
        | none => none
    | _ =>
      match parseExpr fuel ts with
      | some (e, rest1) => parseArgsSep fuel rest1 ((none, e) :: acc)
      | none => none

/-- After one argument: a comma continues the list, a closing parenthesis
ends it. -/
def parseArgsSep (fuel : Nat) (ts : List PyTok) (acc : List (Option String × PyExpr)) :
    Option (List (Option String × PyExpr) × List PyTok) :=
  match fuel with
  | 0 => none
  | fuel + 1 =>
    match ts with
    | PyTok.punct "," :: rest => parseArgs fuel rest acc
    | PyTok.punct ")" :: rest => some (acc.reverse, rest)
    | _ => none

end
/-- Expect a logical NEWLINE. -/
def expectNl (ts : List PyTok) : Option (List PyTok) :=
  match ts with
  | PyTok.nl :: rest => some rest
  | _ => none

/-- Is the expression a valid assignment target of the fragment (a name or an
attribute reference)? -/
def isTarget : PyExpr → Bool
  | PyExpr.nameE _ => true
  | PyExpr.attrE _ _ => true
  | _ => false

/-- The dots of a dotted module name after its first component. -/
def parseDottedRest (fuel : Nat) (ts : List PyTok) : Option (List PyTok) :=
  match fuel with
  | 0 => none
  | fuel + 1 =>
    match ts with
    | PyTok.punct "." :: PyTok.name m :: rest =>
      if isKw m then none else parseDottedRest fuel rest
    | _ => some ts

/-- A dotted module name. -/
def parseDotted (fuel : Nat) (ts : List PyTok) : Option (List PyTok) :=
  match ts with
  | PyTok.name m :: rest => if isKw m then none else parseDottedRest fuel rest
  | _ => none

/-- Parenthesized import names: `NAME (',' NAME)* [','] ')'`. -/
def parseParenNames (fuel : Nat) (ts : List PyTok) : Option (List PyTok) :=
  match fuel with
  | 0 => none
  | fuel + 1 =>
    match ts with
    | PyTok.name n :: rest =>
      if isKw n then none
      else
        match rest with
        | PyTok.punct "," :: PyTok.punct ")" :: r => some r
        | PyTok.punct "," :: r => parseParenNames fuel r
        | PyTok.punct ")" :: r => some r
        | _ => none
    | _ => none

/-- Unparenthesized import names: `NAME (',' NAME)*`. -/
def parsePlainNames (fuel : Nat) (ts : List PyTok) : Option (List PyTok) :=
  match fuel with
  | 0 => none
  | fuel + 1 =>
    match ts with
    | PyTok.name n :: rest =>
      if isKw n then none
      else
        match rest with
        | PyTok.punct "," :: r => parsePlainNames fuel r
        | _ => some rest
    | _ => none

/-- Targets of a `from … import …` statement. -/
def parseImportTargets (fuel : Nat) (ts : List PyTok) : Option (List PyTok) :=
  match ts with
  | PyTok.punct "(" :: rest => parseParenNames fuel rest
  | _ => parsePlainNames fuel ts

/-- Function parameters: `[NAME (',' NAME)*] ')'`. -/
def parseParams (fuel : Nat) (ts : List PyTok) : Option (List PyTok) :=
  match fuel with
  | 0 => none
  | fuel + 1 =>
    match ts with
    | PyTok.punct ")" :: rest => some rest
    | PyTok.name n :: rest =>
      if isKw n then none
      else
        match rest with
        | PyTok.punct "," :: r => parseParams fuel r
        | PyTok.punct ")" :: r => some r
        | _ => none
    | _ => none

mutual

/-- One statement of the fragment: `from … import …`, `class`, `def`,
`return`, `pass`, an assignment or an expression statement. -/
def parseStmt (fuel : Nat) (ts : List PyTok) : Option (List PyTok) :=
  match fuel with
  | 0 => none
  | fuel + 1 =>
    match ts with
    | PyTok.name "from" :: rest =>
      match parseDotted fuel rest with
      | some (PyTok.name "import" :: rest2) =>
        match parseImportTargets fuel rest2 with
        | some rest3 => expectNl rest3
        | none => none
      | _ => none
    | PyTok.name "class" :: PyTok.name n :: rest =>
      if isKw n then none
      else
        match rest with
        | PyTok.punct "(" :: rest1 =>
          match parseArgs fuel rest1 [] with
          | some (_, PyTok.punct ":" :: rest2) => parseBlock fuel rest2
          | _ => none
        | PyTok.punct ":" :: rest1 => parseBlock fuel rest1
        | _ => none
    | PyTok.name "def" :: PyTok.name n :: PyTok.punct "(" :: rest =>
      if isKw n then none
      else
        match parseParams fuel rest with
        | some (PyTok.punct ":" :: rest2) => parseBlock fuel rest2
        | _ => none
    | PyTok.name "return" :: rest =>
      match parseExpr fuel rest with
      | some (_, rest1) => expectNl rest1
      | none => none
    | PyTok.name "pass" :: rest => expectNl rest
    | _ =>
      match parseExpr fuel ts with
      | some (e, rest) =>
        match rest with
        | PyTok.punct "=" :: rest1 =>
          if isTarget e then
            match parseExpr fuel rest1 with
            | some (_, rest2) => expectNl rest2
            | none => none
          else none
        | _ => expectNl rest
      | none => none

/-- Zero or more statements, stopping at a DEDENT or the end of input. -/
def parseStmts (fuel : Nat) (ts : List PyTok) : Option (List PyTok) :=
  match fuel with
  | 0 => none
  | fuel + 1 =>
    match ts with
    | [] => some []
    | PyTok.ded :: _ => some ts
    | _ =>
      match parseStmt fuel ts with
      | some rest => parseStmts fuel rest
      | none => none

/-- An indented block: `NEWLINE INDENT stmt+ DEDENT`. -/
def parseBlock (fuel : Nat) (ts : List PyTok) : Option (List PyTok) :=
  match fuel with
  | 0 => none
  | fuel + 1 =>
    match ts with
    | PyTok.nl :: PyTok.ind :: rest =>
      match parseStmt fuel rest with
      | some rest1 =>
        match parseStmts fuel rest1 with
        | some (PyTok.ded :: rest2) => some rest2
        | _ => none
      | none => none
    | _ => none

end

/-- Does the token stream parse as a sequence of statements consuming all
input? -/
def parseFile (fuel : Nat) (ts : List PyTok) : Bool :=
  match parseStmts fuel ts with
  | some [] => true
  | _ => false

/-- Acceptance of a Python source text by the fragment grammar: it lexes
(line structure included) and parses completely. -/
def pyAccepts (src : String) : Bool :=
  match pyLex src with
  | some ts => parseFile (8 * ts.length + 64) ts
  | none => false
/-! ## Word lists for the textual claims -/

/-- Systems-infrastructure words whose absence section 1 of the spec asserts. -/
def coreInfraWords : List String :=
  ["scheduler", "protocol", "cache", "resolver", "storage"]

/-- Python error-handling keywords (and kin). -/
def errorWords : List String :=
  ["try", "except", "raise", "finally", "assert"]

/-- Concurrency / asynchrony vocabulary. -/
def concurrencyWords : List String :=
  ["thread", "async", "await", "multiprocessing", "concurrent", "yield",
   "lock", "semaphore"]

/-! ## Closed instantiations of the CustomCNN semantics -/

/-- All-zero CustomCNN parameters. -/
def zeroParams : CNNParams :=
  { conv1 := { weight := fun _ _ _ _ => 0, bias := fun _ => 0 },
    fc := { weight := fun _ _ => 0, bias := fun _ => 0 } }

/-- A single zero 32×32 input frame, flattened. -/
def zeroInput : List ℚ := List.replicate 1024 0

/-- The output matrix `forward` returns on `zeroParams` and `zeroInput`. -/
def zeroOut : Nat → Fin 8 → ℚ := fun n k => outputVal zeroParams zeroInput n k

/-! ## Claim theorems -/

set_option maxRecDepth 100000

/-- C1: every cell of 04_embedding_networks.ipynb has cell_type "markdown" —
there are no code cells; both on the parsed notebook and on the raw file
lines, whose eight cell_type fields all read "markdown". -/
theorem notebook_cells_all_markdown :
    (embeddingNetworksNotebook.cells.all fun c => c.cell_type == CellType.markdown) = true
    ∧ (embeddingNetworksNotebook.cells.filter fun c => c.cell_type == CellType.code) = []
    ∧ (ipynbLines.filter fun l => containsStr "cell_type" l)
        = List.replicate 8 "   \"cell_type\": \"markdown\"," := by
  refine ⟨rfl, rfl, rfl⟩

/-- C2: the supplied repository source is exactly one file, the documentation
notebook on embedding networks: one path/content pair, a notebook of
markdown cells whose title cell is about embedding nets. -/
theorem repo_single_source_notebook :
    repoSourceFiles
      = [("docs/how_to_guide/04_embedding_networks.ipynb", embeddingNetworksNotebook)]
    ∧ repoSourceFiles.length = 1
    ∧ (embeddingNetworksNotebook.cells.all fun c => c.cell_type == CellType.markdown) = true
    ∧ containsStr "embedding net" (String.join cell0.source) = true := by
  refine ⟨rfl, rfl, rfl, rfl⟩

/-- C3 counterexample: the supplied source file does not have 134 lines (it
has 133: 132 newline characters and no newline after the final line). -/
theorem ipynb_not_134_lines : ¬ ipynbLines.length = 134 := by decide

/-- C3 amended: the supplied source comprises exactly 133 lines, and no line
mentions a scheduler, protocol, cache, resolver, or storage layer (checked
case-insensitively). -/
theorem ipynb_133_lines_no_infra :
    ipynbLines.length = 133
    ∧ (coreInfraWords.all fun w => ipynbLinesLower.all fun l => !(containsStr w l)) = true := by
  refine ⟨rfl, rfl⟩

/-- C4: the notebook exposes only markdown cells, and its snippets reference
exactly the advertised call sites: posterior_nn, the three pre-built
embedding constructors, CustomCNN extending nn.Module, and the NPE trainer;
the only lines mentioning the sbi package are the two import lines of the
first snippet. -/
theorem notebook_markdown_and_advertised_api :
    (embeddingNetworksNotebook.cells.all fun c => c.cell_type == CellType.markdown) = true
    ∧ (["posterior_nn", "FCEmbedding", "CNNEmbedding",
        "PermutationInvariantEmbedding", "NPE("].all
          fun w => containsStr w pythonSrc1) = true
    ∧ containsStr "class CustomCNN(nn.Module):" pythonSrc2 = true
    ∧ containsStr "posterior_nn" pythonSrc2 = true
    ∧ containsStr "NPE(" pythonSrc2 = true
    ∧ sbiLinesIn (fenceLines cell4)
        = ["from sbi.neural_nets import posterior_nn\n",
           "from sbi.neural_nets.embedding_nets import (\n"]
    ∧ sbiLinesIn (fenceLines cell6) = []
    ∧ codeFenceCells embeddingNetworksNotebook = [cell4, cell6] := by
  refine ⟨rfl, rfl, rfl, rfl, rfl, rfl, rfl, rfl⟩

/-- C5: the CustomCNN layer dimensions are mutually consistent: Conv2d with
kernel 5 and padding 2 keeps a 32×32 plane at 32×32, MaxPool2d(8, 8) takes it
to 4×4, the flatten width 6·4·4 equals fc's in_features (96), and for every
element count divisible by 1024 the forward shape is (numel / 1024, 8). -/
theorem customCNN_shape_consistent :
    conv2dOutDim 32 conv1Kernel conv1Padding 1 1 = 32
    ∧ maxPool2dOutDim 32 poolKernel poolStride = 4
    ∧ flattenWidth = fcInFeatures
    ∧ fcInFeatures = 96
    ∧ ∀ numel : Nat, numel % 1024 = 0 →
        forwardShape numel = some (numel / 1024, 8) := by
  refine ⟨rfl, rfl, rfl, rfl, ?_⟩
  intro numel h
  have h32 : numel % (conv1InChannels * 32 * 32) = 0 := h
  simp only [forwardShape, conv1InChannels, conv1OutChannels, conv1Kernel,
    conv1Padding, poolKernel, poolStride, flattenWidth, fcInFeatures,
    fcOutFeatures, conv2dOutDim, maxPool2dOutDim]
  norm_num [h32]
  omega

/-- C5 witness: at 2048 elements the hypothesis holds and the shape is
(2, 8). -/
theorem customCNN_shape_consistent_witness :
    2048 % 1024 = 0 ∧ forwardShape 2048 = some (2, 8) :=
  ⟨by decide, customCNN_shape_consistent.2.2.2.2 2048 (by decide)⟩
/-- C6: the notebook's code fences are exactly cells 4 and 6, and each fence
content is accepted by the Python fragment grammar (lexing with Python's line
structure, then parsing as statements). -/
theorem snippets_wellformed_python :
    codeFenceCells embeddingNetworksNotebook = [cell4, cell6]
    ∧ ((codeFenceCells embeddingNetworksNotebook).all fun c =>
        pyAccepts (fenceText c)) = true := by
  refine ⟨rfl, by decide⟩

/-- C7: no error-handling construct occurs anywhere in the notebook: no line
of the file contains try, except, raise, finally or assert (checked
case-insensitively, snippets included). -/
theorem notebook_no_error_handling :
    (errorWords.all fun w => ipynbLinesLower.all fun l => !(containsStr w l)) = true := by
  rfl

/-- C8: no concurrent, asynchronous or resource-managed operation occurs in
the notebook: no line contains concurrency vocabulary, and no snippet
statement opens a `with` or `async`/`await` construct. -/
theorem notebook_no_concurrency :
    (concurrencyWords.all fun w => ipynbLinesLower.all fun l => !(containsStr w l)) = true
    ∧ ((fenceLines cell4 ++ fenceLines cell6).all fun l =>
        !(beginsWith "with " (stripLeading l)) &&
        !(beginsWith "async " (stripLeading l)) &&
        !(beginsWith "await " (stripLeading l))) = true := by
  refine ⟨rfl, rfl⟩

/-- C9: since the last operation of CustomCNN.forward is F.relu on the fc
output, every component of every returned embedding row is non-negative, for
every input and every parameter setting. -/
theorem customCNN_output_nonneg :
    ∀ (p : CNNParams) (x : List ℚ) (N : Nat) (out : Nat → Fin 8 → ℚ),
      forward p x = some (N, out) → ∀ n : Nat, n < N → ∀ k : Fin 8, 0 ≤ out n k := by
  intro p x N out h n hn k
  unfold forward at h
  cases hs : forwardShape x.length with
  | none => rw [hs] at h; exact absurd h (by simp)
  | some pr =>
    obtain ⟨rows, w⟩ := pr
    rw [hs] at h
    simp only [Option.some.injEq, Prod.mk.injEq] at h
    obtain ⟨hN, hout⟩ := h
    subst hout
    show (0 : ℚ) ≤ outputVal p x n k
    unfold outputVal relu
    exact le_max_right _ 0

/-- C9 witness: on the all-zero parameters and a zero 1024-element input,
forward returns one row and its component (0, 0) is non-negative. -/
theorem customCNN_output_nonneg_witness :
    forward zeroParams zeroInput = some (1, zeroOut) ∧ (0 : ℚ) ≤ zeroOut 0 0 :=
  ⟨rfl, customCNN_output_nonneg zeroParams zeroInput 1 zeroOut rfl 0 (by decide) 0⟩

/-- C10: CustomCNN.forward is deterministic: run with the torch RNG state
threaded through its ops, the result does not depend on the state, the state
is returned unchanged, and the run agrees with the pure forward. -/
theorem customCNN_forward_deterministic :
    ∀ (p : CNNParams) (x : List ℚ) (g g₁ g₂ : RngState),
      (forwardRun g₁ p x).1 = (forwardRun g₂ p x).1
      ∧ (forwardRun g p x).2 = g
      ∧ (forwardRun g p x).1 = forward p x := by
  intro p x g g₁ g₂
  refine ⟨?_, ?_, ?_⟩
  · unfold forwardRun
    cases hs : forwardShape x.length with
    | none => rfl
    | some pr => obtain ⟨rows, w⟩ := pr; rfl
  · unfold forwardRun
    cases hs : forwardShape x.length with
    | none => rfl
    | some pr => obtain ⟨rows, w⟩ := pr; rfl
  · unfold forwardRun forward
    cases hs : forwardShape x.length with
    | none => rfl
    | some pr =>
      obtain ⟨rows, w⟩ := pr
      simp only [conv1Run, reluPlanesRun, poolRun, flattenRun, fcRun, reluRowsRun]
      refine congrArg some (congrArg (Prod.mk rows) ?_)
      funext n k
      simp only [outputVal, flatFeature, pooledVal, reluConv1Val]
